import Mathlib

attribute [local semireducible] Rat.mul Rat.add Rat.sub Rat.inv

/-!
Shallow embedding of the Habit-Tracker backend core
(src/backend/app/routers/chat.py, src/backend/app/routers/prediction.py,
src/backend/app/ml_engine/loader.py).

Modelling conventions:
* Python floats are modelled as exact rationals (ℚ).
* The Python dict `temp_data` (whose live keys are exactly the six metric
  names) is modelled as a structure with six optional rational fields.
* The three statistical predictors are black boxes; they are passed in as a
  `Predictors` record of functions on the four-metric feature row, exactly as
  the routers call them.  `DummyModel.predict` (loader.py) returns `[5.0]`
  for every input, hence `dummyPredict`.
* The randomized NLG template choice (`random.choice` over fixed template
  lists in `get_acknowledgment` / `get_prompt`) only affects which English
  sentence is shown; bot messages are therefore modelled by the inductive
  `BotMsg`, one constructor per branch of the endpoint, so that every
  deterministic aspect of the response is preserved.
* Recommendation directives are fixed English strings chosen by a
  deterministic rule cascade; each directive is modelled as a constructor of
  an inductive type (`Chat.Tip`, `Prediction.Tip`), with the single
  data-dependent directive carrying its numeric payload.
-/

/-- Digits of a decimal numeral (most significant first) to a natural. -/
def digitsToNat (ds : List Char) : ℕ :=
  ds.foldl (fun n c => 10 * n + (c.toNat - 48)) 0

/-- Attempt to match the regex `[-+]?\d*\.?\d+` (chat.py `extract_number`)
anchored at the head of `cs`, returning the parsed value.  Greedy matching of
this particular pattern yields: optional sign, then either
`digits '.' digits` (when a dot with at least one following digit comes right
after the digit run) or the whole digit run, or `'.' digits` alone. -/
def matchNumAt (cs : List Char) : Option ℚ :=
  let sgn : ℚ := match cs with
    | '-' :: _ => -1
    | _ => 1
  let rest : List Char := match cs with
    | '-' :: t => t
    | '+' :: t => t
    | t => t
  let ds1 := rest.takeWhile Char.isDigit
  let rest2 := rest.dropWhile Char.isDigit
  match rest2 with
  | '.' :: t =>
    let ds2 := t.takeWhile Char.isDigit
    if ds2.isEmpty then
      if ds1.isEmpty then none else some (sgn * (digitsToNat ds1 : ℚ))
    else
      some (sgn * ((digitsToNat ds1 : ℚ) + (digitsToNat ds2 : ℚ) / (10 ^ ds2.length)))
  | _ => if ds1.isEmpty then none else some (sgn * (digitsToNat ds1 : ℚ))

/-- Leftmost match of the number regex over the character list
(`re.findall` returns matches left to right; `extract_number` keeps the
first). -/
def firstNumber : List Char → Option ℚ
  | [] => none
  | c :: t =>
    match matchNumAt (c :: t) with
    | some q => some q
    | none => firstNumber t

/-- chat.py `extract_number`: first number in free text, if any. -/
def extract_number (text : String) : Option ℚ :=
  firstNumber text.data

/-- chat.py `back_keywords` (local to `check_go_back`). -/
def back_keywords : List String :=
  ["back", "undo", "previous", "go back", "restart", "start over"]

/-- Python `str.lower()` on an (ASCII) message, at the character level. -/
def pyLower (s : String) : String :=
  ⟨s.data.map Char.toLower⟩

/-- Python `str.strip()`: remove leading and trailing whitespace. -/
def pyStrip (s : String) : String :=
  ⟨((s.data.dropWhile Char.isWhitespace).reverse.dropWhile Char.isWhitespace).reverse⟩

/-- `leadsWith n h`: `n` is an initial segment of `h`. -/
def leadsWith : List Char → List Char → Bool
  | [], _ => true
  | _ :: _, [] => false
  | a :: as, b :: bs => a == b && leadsWith as bs

/-- `occursIn n h`: `n` occurs contiguously somewhere inside `h`. -/
def occursIn (n : List Char) : List Char → Bool
  | [] => leadsWith n []
  | c :: t => leadsWith n (c :: t) || occursIn n t

/-- Python substring containment `needle in haystack`. -/
def substrIn (needle haystack : String) : Bool :=
  occursIn needle.data haystack.data

/-- chat.py `check_go_back`: does the lowercased message contain any
navigation keyword as a substring? -/
def check_go_back (message : String) : Bool :=
  back_keywords.any (fun keyword => substrIn keyword (pyLower message))

/-- chat.py line 342: `message = input_data.user_message.lower().strip()`. -/
def normalizeMsg (s : String) : String :=
  pyStrip (pyLower s)

/-- The accumulated `temp_data` dict: six optional metrics. -/
structure SessionData where
  sleep_hours : Option ℚ
  work_intensity : Option ℚ
  stress_level : Option ℚ
  mood_score : Option ℚ
  screen_time : Option ℚ
  hydration : Option ℚ
deriving DecidableEq

/-- The empty `{}` data dict. -/
def emptyData : SessionData :=
  ⟨none, none, none, none, none, none⟩

/-- The single-row feature frame the routers build for the predictors. -/
structure Features where
  sleep_hours : ℚ
  work_intensity : ℚ
  stress_level : ℚ
  mood_score : ℚ
deriving DecidableEq

/-- The three black-box predictors (`model_regressor`, `model_classifier`,
`model_clusterer`), abstracted as functions of the feature row; `predict`
returns a one-element list whose head the routers take. -/
structure Predictors where
  regressor : Features → ℚ
  classifier : Features → ℚ
  clusterer : Features → ℚ

/-- loader.py `DummyModel.predict`: always `[5.0]`. -/
def dummyPredict : Features → ℚ :=
  fun _ => 5

/-- All three models fell back to `DummyModel` (no trained artifacts). -/
def dummyPredictors : Predictors :=
  ⟨dummyPredict, dummyPredict, dummyPredict⟩

/-- loader.py `PERSONA_NAMES.get(pred_cluster, "Unique Individual 🌟")`:
dict lookup with numeric-equality keys 0, 1, 2 and a default. -/
def persona_name (cluster : ℚ) : String :=
  if cluster = 0 then "The Night Owl 🦉"
  else if cluster = 1 then "The Balanced Achiever 🧘"
  else if cluster = 2 then "The Workaholic 💼"
  else "Unique Individual 🌟"

/-- Round half to even (Python `round` on an exact value). -/
def roundHalfEven (x : ℚ) : ℤ :=
  let f := Int.floor x
  let r := x - (f : ℚ)
  if r < 1 / 2 then f
  else if 1 / 2 < r then f + 1
  else if f % 2 = 0 then f else f + 1

/-- Python `round(x, 2)` on an exact rational. -/
def pyRound2 (x : ℚ) : ℚ :=
  (roundHalfEven (x * 100) : ℚ) / 100

/-- chat.py lines 493-501: sleep band sub-score (25 points max). -/
def score_sleep_chat (sleep : ℚ) : ℚ :=
  if 7 ≤ sleep ∧ sleep ≤ 9 then 25
  else if (6 ≤ sleep ∧ sleep < 7) ∨ (9 < sleep ∧ sleep ≤ 10) then 20
  else if 5 ≤ sleep ∧ sleep < 6 then 12
  else max 0 (sleep / 9 * 15)

/-- chat.py lines 504-510: work band sub-score (15 points max). -/
def score_work_chat (work : ℚ) : ℚ :=
  if 4 ≤ work ∧ work ≤ 7 then 15
  else if (3 ≤ work ∧ work < 4) ∨ (7 < work ∧ work ≤ 8) then 12
  else 8

/-- chat.py line 514: stress sub-score, linear inverse (20 points max). -/
def score_stress_chat (stress : ℚ) : ℚ :=
  max 0 ((10 - stress) / 10 * 20)

/-- chat.py line 518: mood sub-score, linear (20 points max). -/
def score_mood_chat (mood : ℚ) : ℚ :=
  mood / 10 * 20

/-- chat.py lines 522-529: screen-time band sub-score (10 points max). -/
def score_screen_chat (screen : ℚ) : ℚ :=
  if screen ≤ 3 then 10
  else if screen ≤ 6 then 7
  else if screen ≤ 10 then 4
  else 1

/-- chat.py line 533: hydration sub-score, capped linear (10 points max). -/
def score_hydration_chat (hydration : ℚ) : ℚ :=
  min hydration 8 / 8 * 10

/-- chat.py line 535: the heuristic score, read off the data dict with the
source's per-metric `.get` defaults (sleep 0, work 5, stress 5, mood 5,
screen 0, hydration 0). -/
def heuristicScore (d : SessionData) : ℚ :=
  score_sleep_chat (d.sleep_hours.getD 0)
    + score_work_chat (d.work_intensity.getD 5)
    + score_stress_chat (d.stress_level.getD 5)
    + score_mood_chat (d.mood_score.getD 5)
    + score_screen_chat (d.screen_time.getD 0)
    + score_hydration_chat (d.hydration.getD 0)

/-- chat.py lines 479-484: the feature row for the predictors, read off the
data dict with defaults sleep 7.0, work 5.0, stress 5.0, mood 5.0. -/
def featuresOf (d : SessionData) : Features :=
  ⟨d.sleep_hours.getD 7, d.work_intensity.getD 5,
   d.stress_level.getD 5, d.mood_score.getD 5⟩

namespace Chat

/-- The directives of chat.py `generate_recommendations`, one constructor per
rule in declaration order; `consistencyPraise` carries the 7-day average
score interpolated into its text. -/
inductive Tip where
  | sleepFumes
  | sleepShort
  | sleepQuality
  | stressHigh
  | stressMultiDay
  | stressModerate
  | burnout
  | moodTough
  | moodLow
  | moodBelowUsual
  | sleepWorkCompound
  | screenOverload
  | screenModerate
  | dehydrated
  | hydrationLow
  | hydrationGreat
  | consistencyPraise (avg_score : ℚ)
  | solidWeek
  | goodSpot
  | balancedDefault
deriving DecidableEq

end Chat

/-- The rolling 7-day history summary produced by `calculate_averages`
(chat.py lines 68-83); `none` at use sites covers both a missing user id and
an empty (falsy) averages dict. -/
structure HistorySummary where
  avg_sleep : ℚ
  avg_work : ℚ
  avg_stress : ℚ
  avg_mood : ℚ
  avg_screen : ℚ
  avg_hydration : ℚ
  avg_score : ℚ
  session_count : ℕ
deriving DecidableEq

namespace Chat

/-- chat.py lines 195-260: the `tips` list accumulated by the ordered rule
cascade of `generate_recommendations`, over the data dict (`.get` defaults
sleep 8, work 5, stress 5, mood 5, screen 0, hydration 0) and the optional
history summary. -/
def ruleCascade (data : SessionData) (history : Option HistorySummary) :
    List Tip :=
  let sleep := data.sleep_hours.getD 8
  let work := data.work_intensity.getD 5
  let stress := data.stress_level.getD 5
  let mood := data.mood_score.getD 5
  let screen := data.screen_time.getD 0
  let hydration := data.hydration.getD 0
  let tips :=
    (if sleep < 5 then [Tip.sleepFumes]
     else if sleep < 6 then [Tip.sleepShort]
     else if 9 < sleep then [Tip.sleepQuality]
     else [])
    ++ (if 8 ≤ stress then
          Tip.stressHigh ::
            (match history with
             | some h => if 7 ≤ h.avg_stress then [Tip.stressMultiDay] else []
             | none => [])
        else if 6 ≤ stress then [Tip.stressModerate]
        else [])
    ++ (if 8 ≤ work ∧ mood < 5 then [Tip.burnout] else [])
    ++ (if mood ≤ 3 then [Tip.moodTough]
        else if mood < 5 then
          Tip.moodLow ::
            (match history with
             | some h => if 7 ≤ h.avg_mood then [Tip.moodBelowUsual] else []
             | none => [])
        else [])
    ++ (if sleep < 7 ∧ 7 ≤ work then [Tip.sleepWorkCompound] else [])
    ++ (if 10 < screen then [Tip.screenOverload]
        else if 6 < screen then [Tip.screenModerate]
        else [])
    ++ (if hydration < 3 then [Tip.dehydrated]
        else if hydration < 5 then [Tip.hydrationLow]
        else if 8 ≤ hydration then [Tip.hydrationGreat]
        else [])
    ++ (match history with
        | some h =>
          if 3 ≤ h.session_count then
            if 75 ≤ h.avg_score then [Tip.consistencyPraise h.avg_score]
            else if 60 ≤ h.avg_score then [Tip.solidWeek]
            else []
          else []
        | none => [])
    ++ (if 7 ≤ sleep ∧ stress ≤ 4 ∧ 7 ≤ mood then [Tip.goodSpot] else [])
  tips

/-- chat.py lines 189-266 `generate_recommendations`: the rule cascade,
with the default directive appended exactly when no rule fired
(lines 263-264: `if not tips: tips.append(...)`). -/
def generate_recommendations (data : SessionData) (history : Option HistorySummary) :
    List Tip :=
  let tips := ruleCascade data history
  if tips = [] then [Tip.balancedDefault] else tips

end Chat

/-- No guard of the chat recommendation cascade holds (each cascade block of
`Chat.generate_recommendations` produces nothing). -/
abbrev noRuleFires (data : SessionData) (history : Option HistorySummary) : Prop :=
  let sleep := data.sleep_hours.getD 8
  let work := data.work_intensity.getD 5
  let stress := data.stress_level.getD 5
  let mood := data.mood_score.getD 5
  let screen := data.screen_time.getD 0
  let hydration := data.hydration.getD 0
  (6 ≤ sleep ∧ sleep ≤ 9)
    ∧ stress < 6
    ∧ ¬(8 ≤ work ∧ mood < 5)
    ∧ 5 ≤ mood
    ∧ ¬(sleep < 7 ∧ 7 ≤ work)
    ∧ screen ≤ 6
    ∧ (5 ≤ hydration ∧ hydration < 8)
    ∧ (match history with
       | some h => h.session_count < 3 ∨ h.avg_score < 60
       | none => True)
    ∧ ¬(7 ≤ sleep ∧ stress ≤ 4 ∧ 7 ≤ mood)

/-- The prediction bundle built on the turn that completes step 6
(chat.py lines 584-589). -/
structure PredictionResult where
  daily_score : ℚ
  day_classification : String
  persona : String
  recommendations : List Chat.Tip
deriving DecidableEq

/-- The bot reply of a turn, one constructor per branch of the endpoint
(the concrete English template is chosen at random from a fixed per-branch
set and is not part of the deterministic contract). -/
inductive BotMsg where
  | emptyReply
  | welcome
  | sessionReset
  | returnPrevious (step : ℕ)
  | repromptNoNumber (step : ℕ)
  | repromptSleepRange
  | ackAndPrompt (step : ℕ)
  | report
deriving DecidableEq

/-- The `ChatResponse` payload (bot message, next step, updated data,
optional prediction). -/
structure ChatResponse where
  bot_message : BotMsg
  next_step : ℕ
  updated_data : SessionData
  prediction : Option PredictionResult
deriving DecidableEq

/-- chat.py lines 380-385 `step_data_keys` pop: going back from step `s`
removes the metric collected at step `s - 1`. -/
def popStepKey (s : ℕ) (d : SessionData) : SessionData :=
  match s with
  | 2 => { d with sleep_hours := none }
  | 3 => { d with work_intensity := none }
  | 4 => { d with stress_level := none }
  | 5 => { d with mood_score := none }
  | 6 => { d with screen_time := none }
  | _ => d

/-- chat.py `chat_with_ai` (lines 322-604): one turn of the 7-step state
machine, as a total function of its explicit inputs.  Database persistence
(`save_session_to_db`) and the report's formatted text are side artifacts of
the same computed values and are not part of the returned contract modelled
here.  The function is total: no branch raises to the caller. -/
def chat_with_ai (P : Predictors) (history : Option HistorySummary)
    (current_step : ℕ) (user_message : String) (temp_data : SessionData) :
    ChatResponse :=
  let message := normalizeMsg user_message
  let data := temp_data
  let number_val := extract_number message
  if check_go_back message = true ∧ 0 < current_step then
    if current_step = 1 then
      ⟨BotMsg.sessionReset, 0, data, none⟩
    else
      ⟨BotMsg.returnPrevious (current_step - 1), current_step - 1,
        popStepKey current_step data, none⟩
  else if current_step = 0 then
    ⟨BotMsg.welcome, 1, data, none⟩
  else if current_step = 1 then
    match number_val with
    | none => ⟨BotMsg.repromptNoNumber 1, 1, data, none⟩
    | some n =>
      if n < 0 ∨ 24 < n then
        ⟨BotMsg.repromptSleepRange, 1, data, none⟩
      else
        ⟨BotMsg.ackAndPrompt 2, 2, { data with sleep_hours := some n }, none⟩
  else if current_step = 2 then
    match number_val with
    | none => ⟨BotMsg.repromptNoNumber 2, 2, data, none⟩
    | some n =>
      ⟨BotMsg.ackAndPrompt 3, 3,
        { data with work_intensity := some (max 1 (min 10 n)) }, none⟩
  else if current_step = 3 then
    match number_val with
    | none => ⟨BotMsg.repromptNoNumber 3, 3, data, none⟩
    | some n =>
      ⟨BotMsg.ackAndPrompt 4, 4,
        { data with stress_level := some (max 1 (min 10 n)) }, none⟩
  else if current_step = 4 then
    match number_val with
    | none => ⟨BotMsg.repromptNoNumber 4, 4, data, none⟩
    | some n =>
      ⟨BotMsg.ackAndPrompt 5, 5,
        { data with mood_score := some (max 1 (min 10 n)) }, none⟩
  else if current_step = 5 then
    match number_val with
    | none => ⟨BotMsg.repromptNoNumber 5, 5, data, none⟩
    | some n =>
      ⟨BotMsg.ackAndPrompt 6, 6,
        { data with screen_time := some (max 0 (min 24 n)) }, none⟩
  else if current_step = 6 then
    match number_val with
    | none => ⟨BotMsg.repromptNoNumber 6, 6, data, none⟩
    | some n =>
      let d1 := { data with hydration := some (max 0 (min 20 n)) }
      let pred_score := P.regressor (featuresOf d1)
      let pred_class := P.classifier (featuresOf d1)
      let pred_cluster := P.clusterer (featuresOf d1)
      let heuristic_score := heuristicScore d1
      let final0 :=
        if pred_score ≠ 5 then pred_score * (3 / 10) + heuristic_score * (7 / 10)
        else heuristic_score
      let final_score := min 100 (max 0 final0)
      ⟨BotMsg.report, 0, emptyData,
        some ⟨pyRound2 final_score,
          if pred_class = 1 then "🚀 Attack Mode" else "🔋 Recovery Mode",
          persona_name pred_cluster,
          Chat.generate_recommendations d1 history⟩⟩
  else
    ⟨BotMsg.emptyReply, current_step, data, none⟩

namespace Prediction

/-- The directives of prediction.py `generate_recommendations`, one
constructor per rule in declaration order. -/
inductive Tip where
  | recoveryDeficit
  | hypersomnia
  | cortisolLoad
  | burnoutTrajectory
  | dopamineBaseline
  | cognitiveEndurance
  | allOptimal
deriving DecidableEq

/-- prediction.py lines 21-50 `generate_recommendations`: rule cascade over
the four core metrics (`.get` defaults sleep 8, work 5, stress 5, mood 5);
appends the default directive exactly when no rule fired. -/
def generate_recommendations (data : SessionData) : List Tip :=
  let sleep := data.sleep_hours.getD 8
  let work := data.work_intensity.getD 5
  let stress := data.stress_level.getD 5
  let mood := data.mood_score.getD 5
  let tips :=
    (if sleep < 6 then [Tip.recoveryDeficit]
     else if 9 < sleep then [Tip.hypersomnia]
     else [])
    ++ (if 8 ≤ stress then [Tip.cortisolLoad] else [])
    ++ (if 8 ≤ work ∧ mood < 5 then [Tip.burnoutTrajectory] else [])
    ++ (if mood < 5 then [Tip.dopamineBaseline] else [])
    ++ (if sleep < 7 ∧ 7 ≤ work then [Tip.cognitiveEndurance] else [])
  if tips = [] then [Tip.allOptimal] else tips

end Prediction

/-- The `PredictionResponse` payload of the direct endpoint. -/
structure PredictionResponse where
  daily_score : ℚ
  day_classification : String
  persona : String
  recommendations : List Prediction.Tip
deriving DecidableEq

/-- prediction.py lines 53-102 `predict_performance`: the direct scoring
endpoint, bypassing the conversational flow.  Its heuristic uses only the
four core metrics with its own weights, and its blend is model-dominant
(70% regressor / 30% heuristic). -/
def predict_performance (P : Predictors) (input_data : Features) : PredictionResponse :=
  let pred_score := P.regressor input_data
  let pred_class := P.classifier input_data
  let pred_cluster := P.clusterer input_data
  let score_sleep := min input_data.sleep_hours 9 / 9 * 30
  let score_work := input_data.work_intensity / 10 * 20
  let score_stress := (10 - input_data.stress_level) / 10 * 20
  let score_mood := input_data.mood_score / 10 * 30
  let heuristic_score := score_sleep + score_work + score_stress + score_mood
  let final0 :=
    if pred_score ≠ 5 then pred_score * (7 / 10) + heuristic_score * (3 / 10)
    else heuristic_score
  let final_score := min 100 (max 0 final0)
  ⟨pyRound2 final_score,
    if pred_class = 1 then "🚀 Attack Mode" else "🔋 Recovery Mode",
    persona_name pred_cluster,
    Prediction.generate_recommendations
      ⟨some input_data.sleep_hours, some input_data.work_intensity,
       some input_data.stress_level, some input_data.mood_score, none, none⟩⟩

/-! ## Helper notions and lemmas -/

/-- Every value present in `new` was either already present in `old` or lies
in the band `[lo, hi]`. -/
def storedInBand (old new : Option ℚ) (lo hi : ℚ) : Prop :=
  ∀ v : ℚ, new = some v → old = some v ∨ (lo ≤ v ∧ v ≤ hi)

theorem storedInBand_refl (a : Option ℚ) (lo hi : ℚ) : storedInBand a a lo hi :=
  fun _ h => Or.inl h

theorem storedInBand_none (a : Option ℚ) (lo hi : ℚ) : storedInBand a none lo hi :=
  fun _ h => by cases h

theorem storedInBand_clamp (a : Option ℚ) (lo hi n : ℚ) (h : lo ≤ hi) :
    storedInBand a (some (max lo (min hi n))) lo hi := by
  intro v hv
  refine Or.inr ?_
  cases hv
  constructor
  · exact le_max_left _ _
  · exact max_le h (min_le_left _ _)

theorem storedInBand_some_of_band (a : Option ℚ) (lo hi v : ℚ)
    (h1 : lo ≤ v) (h2 : v ≤ hi) : storedInBand a (some v) lo hi := by
  intro w hw
  cases hw
  exact Or.inr ⟨h1, h2⟩

/-- The chat recommendation cascade never returns the empty list. -/
theorem chat_recommendations_ne_nil (data : SessionData)
    (history : Option HistorySummary) :
    Chat.generate_recommendations data history ≠ [] := by
  unfold Chat.generate_recommendations
  by_cases h : Chat.ruleCascade data history = []
  · simp [h]
  · simp [h]

/-! ## C2: blending rule of the conversational completion path -/

/-- C2: on the conversational completion path (step 6 with an extracted
number and no navigation command), writing `d1` for the data with the
clamped hydration value stored and `r` for the regressor output on `d1`'s
feature row: if `r` differs from the sentinel `5.0` the final score is
`0.3 * r + 0.7 * heuristic`, otherwise it is the heuristic score alone; in
both cases the result is clamped to `[0, 100]` and the reported
`daily_score` is its two-decimal rounding. -/
theorem chat_completion_score_blend (P : Predictors) (history : Option HistorySummary)
    (msg : String) (data : SessionData) (n : ℚ)
    (hgb : check_go_back (normalizeMsg msg) = false)
    (hn : extract_number (normalizeMsg msg) = some n) :
    ∃ p : PredictionResult,
      (chat_with_ai P history 6 msg data).prediction = some p
      ∧ (P.regressor (featuresOf { data with hydration := some (max 0 (min 20 n)) }) ≠ 5 →
          p.daily_score = pyRound2 (min 100 (max 0
            (3 / 10 * P.regressor (featuresOf { data with hydration := some (max 0 (min 20 n)) })
              + 7 / 10 * heuristicScore { data with hydration := some (max 0 (min 20 n)) }))))
      ∧ (P.regressor (featuresOf { data with hydration := some (max 0 (min 20 n)) }) = 5 →
          p.daily_score = pyRound2 (min 100 (max 0
            (heuristicScore { data with hydration := some (max 0 (min 20 n)) })))) := by
  rcases hp : (chat_with_ai P history 6 msg data).prediction with _ | p
  · exfalso
    simp [chat_with_ai, hgb, hn] at hp
  · refine ⟨p, rfl, ?_, ?_⟩ <;> intro hr <;>
      simp [chat_with_ai, hgb, hn] at hp <;> subst hp <;> simp [hr]
    congr 3
    ring

/-- Witness for C2: a concrete completed turn (all hypotheses discharged on
the literal inputs; the dummy regressor returns the sentinel, so the
heuristic branch applies). -/
theorem chat_completion_score_blend_witness :
    check_go_back (normalizeMsg "9") = false
    ∧ extract_number (normalizeMsg "9") = some 9
    ∧ ∃ p : PredictionResult,
        (chat_with_ai dummyPredictors none 6 "9"
            ⟨some 8, some 5, some 3, some 8, some 2, none⟩).prediction = some p
        ∧ (dummyPredictors.regressor (featuresOf
              ⟨some 8, some 5, some 3, some 8, some 2, some (max 0 (min 20 9))⟩) = 5 →
            p.daily_score = pyRound2 (min 100 (max 0 (heuristicScore
              ⟨some 8, some 5, some 3, some 8, some 2, some (max 0 (min 20 9))⟩)))) := by
  refine ⟨by decide, by decide, ?_⟩
  obtain ⟨p, h1, _, h3⟩ := chat_completion_score_blend dummyPredictors none "9"
    ⟨some 8, some 5, some 3, some 8, some 2, none⟩ 9 (by decide) (by decide)
  exact ⟨p, h1, h3⟩

/-! ## C10: behavior under the DummyModel fallback -/

/-- C10: when all three predictors are the DummyModel fallback
(`predict` always `[5.0]`), every completed session is deterministic in the
stated way: the classification is always the recovery label (since
`5.0 ≠ 1`), the persona is always the generic fallback (`5.0` is not a key
of `PERSONA_NAMES`), and the final score is the pure heuristic score (the
sentinel disables blending; the score is then clamped and rounded as
always). -/
theorem dummy_fallback_recovery_generic (history : Option HistorySummary)
    (msg : String) (data : SessionData) (n : ℚ)
    (hgb : check_go_back (normalizeMsg msg) = false)
    (hn : extract_number (normalizeMsg msg) = some n) :
    ∃ p : PredictionResult,
      (chat_with_ai dummyPredictors history 6 msg data).prediction = some p
      ∧ p.day_classification = "🔋 Recovery Mode"
      ∧ p.persona = "Unique Individual 🌟"
      ∧ p.daily_score = pyRound2 (min 100 (max 0
          (heuristicScore { data with hydration := some (max 0 (min 20 n)) }))) := by
  rcases hp : (chat_with_ai dummyPredictors history 6 msg data).prediction with _ | p
  · exfalso
    simp [chat_with_ai, hgb, hn] at hp
  · refine ⟨p, rfl, ?_, ?_, ?_⟩ <;>
      simp [chat_with_ai, hgb, hn, dummyPredictors, dummyPredict, persona_name] at hp <;>
      subst hp <;> simp

/-- Witness for C10 at a concrete completed turn. -/
theorem dummy_fallback_recovery_generic_witness :
    check_go_back (normalizeMsg "9 glasses") = false
    ∧ extract_number (normalizeMsg "9 glasses") = some 9
    ∧ ∃ p : PredictionResult,
        (chat_with_ai dummyPredictors none 6 "9 glasses"
            ⟨some 8, some 5, some 3, some 8, some 2, none⟩).prediction = some p
        ∧ p.day_classification = "🔋 Recovery Mode"
        ∧ p.persona = "Unique Individual 🌟" := by
  refine ⟨by decide, by decide, ?_⟩
  obtain ⟨p, h1, h2, h3, _⟩ := dummy_fallback_recovery_generic none "9 glasses"
    ⟨some 8, some 5, some 3, some 8, some 2, none⟩ 9 (by decide) (by decide)
  exact ⟨p, h1, h2, h3⟩

/-! ## C4: completing step 6 yields exactly one prediction and resets data -/

/-- C4: a turn that completes step 6 with a valid number (no navigation
command, a number extracted — any number is valid at step 6, it is clamped)
returns a fully populated `PredictionResult` (all four fields present, the
recommendation list nonempty), with `updated_data` reset to the empty map
and `next_step = 0` on that same turn; and no turn at steps 0-5 ever
returns a prediction, so a run of steps 1 through 6 returns exactly one. -/
theorem completion_returns_one_prediction (P : Predictors)
    (history : Option HistorySummary) (msg : String) (data : SessionData) (n : ℚ)
    (hgb : check_go_back (normalizeMsg msg) = false)
    (hn : extract_number (normalizeMsg msg) = some n) :
    (∃ p : PredictionResult,
        (chat_with_ai P history 6 msg data).prediction = some p
        ∧ p.recommendations ≠ [])
      ∧ (chat_with_ai P history 6 msg data).updated_data = emptyData
      ∧ (chat_with_ai P history 6 msg data).next_step = 0
      ∧ ∀ (k : ℕ) (msg2 : String) (data2 : SessionData), k ≤ 5 →
          (chat_with_ai P history k msg2 data2).prediction = none := by
  have hmain : ∃ p : PredictionResult,
      (chat_with_ai P history 6 msg data).prediction = some p
      ∧ p.recommendations ≠ [] := by
    rcases hp : (chat_with_ai P history 6 msg data).prediction with _ | p
    · exfalso
      simp [chat_with_ai, hgb, hn] at hp
    · refine ⟨p, rfl, ?_⟩
      simp [chat_with_ai, hgb, hn] at hp
      subst hp
      exact chat_recommendations_ne_nil _ _
  refine ⟨hmain, ?_, ?_, ?_⟩
  · simp [chat_with_ai, hgb, hn]
  · simp [chat_with_ai, hgb, hn]
  · intro k msg2 data2 hk
    unfold chat_with_ai
    by_cases hb : check_go_back (normalizeMsg msg2) = true ∧ 0 < k
    · simp only [if_pos hb]
      split <;> rfl
    · simp only [if_neg hb]
      interval_cases k <;>
        rcases hnum : extract_number (normalizeMsg msg2) with _ | m <;>
          simp [hnum] <;> split <;> rfl

/-- Witness for C4 at a concrete completed turn (hypotheses discharged on
literal inputs). -/
theorem completion_returns_one_prediction_witness :
    check_go_back (normalizeMsg "10") = false
    ∧ extract_number (normalizeMsg "10") = some 10
    ∧ (chat_with_ai dummyPredictors none 6 "10"
        ⟨some 8, some 5, some 3, some 8, some 2, none⟩).updated_data = emptyData
    ∧ (chat_with_ai dummyPredictors none 6 "10"
        ⟨some 8, some 5, some 3, some 8, some 2, none⟩).next_step = 0
    ∧ (chat_with_ai dummyPredictors none 3 "no idea" emptyData).prediction = none := by
  obtain ⟨_, h2, h3, h4⟩ := completion_returns_one_prediction dummyPredictors none "10"
    ⟨some 8, some 5, some 3, some 8, some 2, none⟩ 10 (by decide) (by decide)
  exact ⟨by decide, by decide, h2, h3, h4 3 "no idea" emptyData (by decide)⟩

/-! ## C3: band invariant for every stored value -/

theorem storedInBand_of_eq_or_none {old new : Option ℚ} {lo hi : ℚ}
    (h : new = old ∨ new = none) : storedInBand old new lo hi := by
  rcases h with h | h <;> subst h
  · exact storedInBand_refl _ _ _
  · exact storedInBand_none _ _ _

/-- Each field of `popStepKey s d` is either the original field or removed. -/
theorem popStepKey_field_cases (s : ℕ) (d : SessionData) :
    ((popStepKey s d).sleep_hours = d.sleep_hours ∨ (popStepKey s d).sleep_hours = none)
    ∧ ((popStepKey s d).work_intensity = d.work_intensity ∨ (popStepKey s d).work_intensity = none)
    ∧ ((popStepKey s d).stress_level = d.stress_level ∨ (popStepKey s d).stress_level = none)
    ∧ ((popStepKey s d).mood_score = d.mood_score ∨ (popStepKey s d).mood_score = none)
    ∧ ((popStepKey s d).screen_time = d.screen_time ∨ (popStepKey s d).screen_time = none)
    ∧ ((popStepKey s d).hydration = d.hydration ∨ (popStepKey s d).hydration = none) := by
  unfold popStepKey
  rcases s with _ | _ | _ | _ | _ | _ | _ | s <;> simp

/-- C3: after any single turn of `chat_with_ai` (any step, any message, any
input data), every value the turn stores satisfies its band: any
`work_intensity`, `stress_level` or `mood_score` present in the output data
was either already present in the input or lies in `[1, 10]`; `screen_time`
likewise in `[0, 24]`; `hydration` in `[0, 20]` (out-of-band numbers are
clamped before storing); and any `sleep_hours` present was already present
or lies in `[0, 24]` (an out-of-range sleep number is never stored). -/
theorem stored_values_in_band (P : Predictors) (history : Option HistorySummary)
    (step : ℕ) (msg : String) (data : SessionData) :
    storedInBand data.sleep_hours
      (chat_with_ai P history step msg data).updated_data.sleep_hours 0 24
    ∧ storedInBand data.work_intensity
      (chat_with_ai P history step msg data).updated_data.work_intensity 1 10
    ∧ storedInBand data.stress_level
      (chat_with_ai P history step msg data).updated_data.stress_level 1 10
    ∧ storedInBand data.mood_score
      (chat_with_ai P history step msg data).updated_data.mood_score 1 10
    ∧ storedInBand data.screen_time
      (chat_with_ai P history step msg data).updated_data.screen_time 0 24
    ∧ storedInBand data.hydration
      (chat_with_ai P history step msg data).updated_data.hydration 0 20 := by
  simp only [chat_with_ai]
  by_cases hb : check_go_back (normalizeMsg msg) = true ∧ 0 < step
  · rw [if_pos hb]
    by_cases h1 : step = 1
    · rw [if_pos h1]
      exact ⟨storedInBand_refl _ _ _, storedInBand_refl _ _ _, storedInBand_refl _ _ _,
        storedInBand_refl _ _ _, storedInBand_refl _ _ _, storedInBand_refl _ _ _⟩
    · rw [if_neg h1]
      obtain ⟨c1, c2, c3, c4, c5, c6⟩ := popStepKey_field_cases step data
      exact ⟨storedInBand_of_eq_or_none c1, storedInBand_of_eq_or_none c2,
        storedInBand_of_eq_or_none c3, storedInBand_of_eq_or_none c4,
        storedInBand_of_eq_or_none c5, storedInBand_of_eq_or_none c6⟩
  · rw [if_neg hb]
    by_cases h0 : step = 0
    · rw [if_pos h0]
      exact ⟨storedInBand_refl _ _ _, storedInBand_refl _ _ _, storedInBand_refl _ _ _,
        storedInBand_refl _ _ _, storedInBand_refl _ _ _, storedInBand_refl _ _ _⟩
    rw [if_neg h0]
    by_cases h1 : step = 1
    · rw [if_pos h1]
      rcases hnum : extract_number (normalizeMsg msg) with _ | m
      · exact ⟨storedInBand_refl _ _ _, storedInBand_refl _ _ _, storedInBand_refl _ _ _,
          storedInBand_refl _ _ _, storedInBand_refl _ _ _, storedInBand_refl _ _ _⟩
      · dsimp only
        by_cases hrange : m < 0 ∨ 24 < m
        · rw [if_pos hrange]
          exact ⟨storedInBand_refl _ _ _, storedInBand_refl _ _ _, storedInBand_refl _ _ _,
            storedInBand_refl _ _ _, storedInBand_refl _ _ _, storedInBand_refl _ _ _⟩
        · rw [if_neg hrange]
          push_neg at hrange
          exact ⟨storedInBand_some_of_band _ _ _ m hrange.1 hrange.2,
            storedInBand_refl _ _ _, storedInBand_refl _ _ _,
            storedInBand_refl _ _ _, storedInBand_refl _ _ _, storedInBand_refl _ _ _⟩
    rw [if_neg h1]
    by_cases h2 : step = 2
    · rw [if_pos h2]
      rcases hnum : extract_number (normalizeMsg msg) with _ | m
      · exact ⟨storedInBand_refl _ _ _, storedInBand_refl _ _ _, storedInBand_refl _ _ _,
          storedInBand_refl _ _ _, storedInBand_refl _ _ _, storedInBand_refl _ _ _⟩
      · exact ⟨storedInBand_refl _ _ _, storedInBand_clamp _ _ _ m (by norm_num),
          storedInBand_refl _ _ _, storedInBand_refl _ _ _,
          storedInBand_refl _ _ _, storedInBand_refl _ _ _⟩
    rw [if_neg h2]
    by_cases h3 : step = 3
    · rw [if_pos h3]
      rcases hnum : extract_number (normalizeMsg msg) with _ | m
      · exact ⟨storedInBand_refl _ _ _, storedInBand_refl _ _ _, storedInBand_refl _ _ _,
          storedInBand_refl _ _ _, storedInBand_refl _ _ _, storedInBand_refl _ _ _⟩
      · exact ⟨storedInBand_refl _ _ _, storedInBand_refl _ _ _,
          storedInBand_clamp _ _ _ m (by norm_num), storedInBand_refl _ _ _,
          storedInBand_refl _ _ _, storedInBand_refl _ _ _⟩
    rw [if_neg h3]
    by_cases h4 : step = 4
    · rw [if_pos h4]
      rcases hnum : extract_number (normalizeMsg msg) with _ | m
      · exact ⟨storedInBand_refl _ _ _, storedInBand_refl _ _ _, storedInBand_refl _ _ _,
          storedInBand_refl _ _ _, storedInBand_refl _ _ _, storedInBand_refl _ _ _⟩
      · exact ⟨storedInBand_refl _ _ _, storedInBand_refl _ _ _, storedInBand_refl _ _ _,
          storedInBand_clamp _ _ _ m (by norm_num), storedInBand_refl _ _ _,
          storedInBand_refl _ _ _⟩
    rw [if_neg h4]
    by_cases h5 : step = 5
    · rw [if_pos h5]
      rcases hnum : extract_number (normalizeMsg msg) with _ | m
      · exact ⟨storedInBand_refl _ _ _, storedInBand_refl _ _ _, storedInBand_refl _ _ _,
          storedInBand_refl _ _ _, storedInBand_refl _ _ _, storedInBand_refl _ _ _⟩
      · exact ⟨storedInBand_refl _ _ _, storedInBand_refl _ _ _, storedInBand_refl _ _ _,
          storedInBand_refl _ _ _, storedInBand_clamp _ _ _ m (by norm_num),
          storedInBand_refl _ _ _⟩
    rw [if_neg h5]
    by_cases h6 : step = 6
    · rw [if_pos h6]
      rcases hnum : extract_number (normalizeMsg msg) with _ | m
      · exact ⟨storedInBand_refl _ _ _, storedInBand_refl _ _ _, storedInBand_refl _ _ _,
          storedInBand_refl _ _ _, storedInBand_refl _ _ _, storedInBand_refl _ _ _⟩
      · exact ⟨storedInBand_none _ _ _, storedInBand_none _ _ _, storedInBand_none _ _ _,
          storedInBand_none _ _ _, storedInBand_none _ _ _, storedInBand_none _ _ _⟩
    rw [if_neg h6]
    exact ⟨storedInBand_refl _ _ _, storedInBand_refl _ _ _, storedInBand_refl _ _ _,
      storedInBand_refl _ _ _, storedInBand_refl _ _ _, storedInBand_refl _ _ _⟩

/-- Witness for C3: a concrete turn at step 2 with "15" stores the clamped
value 10, which the theorem certifies to be in band. -/
theorem stored_values_in_band_witness :
    (chat_with_ai dummyPredictors none 2 "15" emptyData).updated_data.work_intensity
      = some 10
    ∧ ((1 : ℚ) ≤ 10 ∧ (10 : ℚ) ≤ 10) := by
  have h := (stored_values_in_band dummyPredictors none 2 "15" emptyData).2.1
  refine ⟨by decide, ?_⟩
  rcases h 10 (by decide) with h1 | h2
  · exact absurd h1 (by decide)
  · exact h2

/-! ## C6: recoverable input errors are handled locally (corrected) -/

/-- C6 counterexample: at step 2 with the message "go back" — which contains
no number — the turn does not keep the step and data unchanged, refuting the
claim as stated: the Command Detector fires first, the step decreases and
the stored sleep value is removed. -/
theorem recoverable_input_error_counterexample :
    extract_number (normalizeMsg "go back") = none
    ∧ (chat_with_ai dummyPredictors none 2 "go back"
        ⟨some 7, none, none, none, none, none⟩).next_step = 1
    ∧ (chat_with_ai dummyPredictors none 2 "go back"
        ⟨some 7, none, none, none, none, none⟩).updated_data
      ≠ ⟨some 7, none, none, none, none, none⟩ :=
  ⟨by decide, by decide, by decide⟩

/-- C6 (amended): for every collection step 1-6, provided the Command
Detector does not fire on the message, if the message contains no number —
or the step is 1 (sleep) and the extracted number is outside [0, 24] — the
turn returns the same step, the input data map unchanged, a corrective
re-prompt message, and no prediction.  (`chat_with_ai` is a total function:
this recoverable error is never raised to the caller.) -/
theorem recoverable_input_error_local (P : Predictors) (history : Option HistorySummary)
    (step : ℕ) (msg : String) (data : SessionData)
    (hstep : 1 ≤ step ∧ step ≤ 6)
    (hgb : check_go_back (normalizeMsg msg) = false) :
    (extract_number (normalizeMsg msg) = none →
      chat_with_ai P history step msg data
        = ⟨BotMsg.repromptNoNumber step, step, data, none⟩)
    ∧ (∀ n : ℚ, step = 1 → extract_number (normalizeMsg msg) = some n →
        (n < 0 ∨ 24 < n) →
        chat_with_ai P history step msg data
          = ⟨BotMsg.repromptSleepRange, 1, data, none⟩) := by
  obtain ⟨hs1, hs6⟩ := hstep
  constructor
  · intro hnone
    unfold chat_with_ai
    rw [if_neg (by simp [hgb])]
    interval_cases step <;> simp [hnone]
  · intro n h1 hnum hrange
    subst h1
    unfold chat_with_ai
    rw [if_neg (by simp [hgb])]
    simp [hnum, hrange]

/-- Witness for C6 (amended) at two concrete turns: a numberless message at
step 3, and an out-of-range sleep value at step 1. -/
theorem recoverable_input_error_local_witness :
    chat_with_ai dummyPredictors none 3 "no value" emptyData
      = ⟨BotMsg.repromptNoNumber 3, 3, emptyData, none⟩
    ∧ chat_with_ai dummyPredictors none 1 "30" emptyData
      = ⟨BotMsg.repromptSleepRange, 1, emptyData, none⟩ :=
  ⟨(recoverable_input_error_local dummyPredictors none 3 "no value" emptyData
      (by decide) (by decide)).1 (by decide),
   (recoverable_input_error_local dummyPredictors none 1 "30" emptyData
      (by decide) (by decide)).2 30 rfl (by decide) (by decide)⟩

/-! ## C5: backward transition (corrected) -/

/-- C5 counterexample: "go back" at step 1 does NOT return empty data — the
code resets the step but returns the input data map unchanged, refuting the
"full reset to empty data" part of the claim. -/
theorem go_back_step1_counterexample :
    check_go_back (normalizeMsg "back") = true
    ∧ (chat_with_ai dummyPredictors none 1 "back"
        ⟨none, some 5, none, none, none, none⟩).next_step = 0
    ∧ (chat_with_ai dummyPredictors none 1 "back"
        ⟨none, some 5, none, none, none, none⟩).updated_data ≠ emptyData :=
  ⟨by decide, by decide, by decide⟩

/-- C5 (amended): when the Command Detector fires, from step k with
2 ≤ k ≤ 6 the turn removes exactly the metric owned by step k-1 (all other
keys unchanged — the updated data is the input with that single field
cleared) and returns next_step k-1 and no prediction; from step 1 it
returns next_step 0 with the data map returned *unchanged* (not cleared).
The transition takes priority over number extraction and per-step
validation: no hypothesis about the extracted number is needed. -/
theorem go_back_transition (P : Predictors) (history : Option HistorySummary)
    (msg : String) (data : SessionData) (step : ℕ)
    (hgb : check_go_back (normalizeMsg msg) = true) :
    (step = 1 → chat_with_ai P history step msg data
        = ⟨BotMsg.sessionReset, 0, data, none⟩)
    ∧ (2 ≤ step → step ≤ 6 →
        (chat_with_ai P history step msg data).next_step = step - 1
        ∧ (chat_with_ai P history step msg data).prediction = none
        ∧ (step = 2 → (chat_with_ai P history step msg data).updated_data
            = { data with sleep_hours := none })
        ∧ (step = 3 → (chat_with_ai P history step msg data).updated_data
            = { data with work_intensity := none })
        ∧ (step = 4 → (chat_with_ai P history step msg data).updated_data
            = { data with stress_level := none })
        ∧ (step = 5 → (chat_with_ai P history step msg data).updated_data
            = { data with mood_score := none })
        ∧ (step = 6 → (chat_with_ai P history step msg data).updated_data
            = { data with screen_time := none })) := by
  constructor
  · intro h1
    subst h1
    unfold chat_with_ai
    rw [if_pos ⟨hgb, by norm_num⟩, if_pos rfl]
  · intro h2 h6
    unfold chat_with_ai
    rw [if_pos ⟨hgb, by omega⟩, if_neg (by omega)]
    refine ⟨rfl, rfl, ?_, ?_, ?_, ?_, ?_⟩ <;> intro he <;> subst he <;> rfl

/-- Witness for C5 (amended) at a concrete turn: "go back 3" at step 4 —
despite the message containing a number, the stress value (owned by step 3)
is removed and the step decreases. -/
theorem go_back_transition_witness :
    extract_number (normalizeMsg "go back 3") = some 3
    ∧ (chat_with_ai dummyPredictors none 4 "go back 3"
        ⟨some 7, some 5, some 4, none, none, none⟩).next_step = 3
    ∧ (chat_with_ai dummyPredictors none 4 "go back 3"
        ⟨some 7, some 5, some 4, none, none, none⟩).updated_data
      = ⟨some 7, some 5, none, none, none, none⟩ := by
  have h := (go_back_transition dummyPredictors none "go back 3"
    ⟨some 7, some 5, some 4, none, none, none⟩ 4 (by decide)).2 (by decide) (by decide)
  exact ⟨by decide, h.1, h.2.2.2.2.1 rfl⟩

/-! ## C9: the Command Detector is substring containment -/

/-- C9: `check_go_back` fires on substring containment, not word match: any
message whose lowercased text contains one of "back", "undo", "previous",
"restart", "start over" anywhere — including inside a longer word such as
"backpack" — makes it return true, and at any step greater than 0 such a
message triggers the backward transition (step decreases by one, no
prediction) instead of metric collection. -/
theorem command_detector_substring (msg : String) (k : String) (P : Predictors)
    (history : Option HistorySummary) (step : ℕ) (data : SessionData) :
    (k ∈ (["back", "undo", "previous", "restart", "start over"] : List String) →
      substrIn k (pyLower msg) = true → check_go_back msg = true)
    ∧ (0 < step → check_go_back (normalizeMsg msg) = true →
        (chat_with_ai P history step msg data).next_step = step - 1
        ∧ (chat_with_ai P history step msg data).prediction = none) := by
  constructor
  · intro hk hsub
    unfold check_go_back
    rw [List.any_eq_true]
    refine ⟨k, ?_, hsub⟩
    fin_cases hk <;> simp [back_keywords]
  · intro hs hgb
    unfold chat_with_ai
    rw [if_pos ⟨hgb, hs⟩]
    by_cases h1 : step = 1
    · rw [if_pos h1]
      subst h1
      exact ⟨rfl, rfl⟩
    · rw [if_neg h1]
      exact ⟨rfl, rfl⟩

/-- Witness for C9: "backpack" contains "back" inside a longer word, fires
the detector, and at step 2 triggers the backward transition. -/
theorem command_detector_substring_witness :
    check_go_back "backpack" = true
    ∧ (chat_with_ai dummyPredictors none 2 "backpack"
        ⟨some 7, none, none, none, none, none⟩).next_step = 1 := by
  refine ⟨(command_detector_substring "backpack" "back" dummyPredictors none 2
      ⟨some 7, none, none, none, none, none⟩).1 (by decide) (by decide), ?_⟩
  exact ((command_detector_substring "backpack" "back" dummyPredictors none 2
      ⟨some 7, none, none, none, none, none⟩).2 (by decide) (by decide)).1

/-! ## C7: the Recommendation Engine is deterministic and never empty -/

/-- C7: the chat Recommendation Engine is a deterministic function — two
calls with identical metrics and history yield the same directive list, in
the fixed rule-declaration order of the cascade — the list is never empty,
and when zero threshold rules fire it is exactly the single default
directive. -/
theorem recommendations_deterministic_nonempty (data : SessionData)
    (history : Option HistorySummary) :
    (∀ (data2 : SessionData) (history2 : Option HistorySummary),
      data = data2 → history = history2 →
        Chat.generate_recommendations data history
          = Chat.generate_recommendations data2 history2)
    ∧ Chat.generate_recommendations data history ≠ []
    ∧ (noRuleFires data history →
        Chat.generate_recommendations data history = [Chat.Tip.balancedDefault]) := by
  refine ⟨?_, chat_recommendations_ne_nil data history, ?_⟩
  · intro d2 h2 hd hh
    subst hd
    subst hh
    rfl
  · intro hn
    obtain ⟨⟨a1, a2⟩, b, c, d, e, f, ⟨g1, g2⟩, hhist, i⟩ := hn
    have hcasc : Chat.ruleCascade data history = [] := by
      unfold Chat.ruleCascade
      dsimp only
      rw [if_neg (by linarith : ¬ data.sleep_hours.getD 8 < 5),
        if_neg (by linarith : ¬ data.sleep_hours.getD 8 < 6),
        if_neg (by linarith : ¬ (9 : ℚ) < data.sleep_hours.getD 8),
        if_neg (by linarith : ¬ (8 : ℚ) ≤ data.stress_level.getD 5),
        if_neg (by linarith : ¬ (6 : ℚ) ≤ data.stress_level.getD 5),
        if_neg c,
        if_neg (by linarith : ¬ data.mood_score.getD 5 ≤ 3),
        if_neg (by linarith : ¬ data.mood_score.getD 5 < 5),
        if_neg e,
        if_neg (by linarith : ¬ (10 : ℚ) < data.screen_time.getD 0),
        if_neg (by linarith : ¬ (6 : ℚ) < data.screen_time.getD 0),
        if_neg (by linarith : ¬ data.hydration.getD 0 < 3),
        if_neg (by linarith : ¬ data.hydration.getD 0 < 5),
        if_neg (by linarith : ¬ (8 : ℚ) ≤ data.hydration.getD 0),
        if_neg i]
      rcases history with _ | hsum
      · simp
      · dsimp only
        by_cases hc : 3 ≤ hsum.session_count
        · rcases hhist with hcount | havg
          · omega
          · rw [if_pos hc, if_neg (by linarith : ¬ (75 : ℚ) ≤ hsum.avg_score),
              if_neg (by linarith : ¬ (60 : ℚ) ≤ hsum.avg_score)]
            simp
        · rw [if_neg hc]
          simp
    unfold Chat.generate_recommendations
    rw [hcasc]
    simp

/-- Witness for C7: a balanced concrete input on which no rule fires and the
engine emits exactly the default directive. -/
theorem recommendations_deterministic_nonempty_witness :
    noRuleFires ⟨some (13/2), some 5, some 5, some 5, some 0, some 6⟩ none
    ∧ Chat.generate_recommendations
        ⟨some (13/2), some 5, some 5, some 5, some 0, some 6⟩ none
      = [Chat.Tip.balancedDefault] :=
  ⟨by decide,
   (recommendations_deterministic_nonempty
      ⟨some (13/2), some 5, some 5, some 5, some 0, some 6⟩ none).2.2 (by decide)⟩

/-! ## C1: direct endpoint vs conversational completion (corrected) -/

/-- C1 counterexample: identical metric inputs (sleep 8, work 5, stress 3,
mood 8; screen 2 and hydration 9 on the chat side) and identical predictor
outputs (the dummy fallback on both paths): the conversational path reports
a daily score of 90, the direct endpoint 74.67.  The two entry points do
not produce the same PredictionResult: their heuristics (banded 6-metric
vs linear 4-metric), blend ratios (30%/70% vs 70%/30%) and recommendation
rule sets differ. -/
theorem direct_vs_chat_counterexample :
    (chat_with_ai dummyPredictors none 6 "9"
        ⟨some 8, some 5, some 3, some 8, some 2, none⟩).prediction.map
      PredictionResult.daily_score = some 90
    ∧ (predict_performance dummyPredictors ⟨8, 5, 3, 8⟩).daily_score = 7467 / 100
    ∧ (90 : ℚ) ≠ 7467 / 100 :=
  ⟨by decide, by decide, by decide⟩

/-- C1 (amended): for identical metric inputs and identical predictor
outputs, the direct scoring entry point and the conversational completion
path agree on `day_classification` and `persona` (both compute them from
the same classifier/clusterer outputs and the same lookup), but not on the
whole PredictionResult — the daily scores and recommendation lists differ
in general (see the counterexample). -/
theorem direct_and_chat_agree_on_class_persona (P : Predictors)
    (history : Option HistorySummary) (msg : String) (n : ℚ)
    (sl wk st md sc : ℚ) (hy : Option ℚ)
    (hgb : check_go_back (normalizeMsg msg) = false)
    (hn : extract_number (normalizeMsg msg) = some n) :
    ∃ p : PredictionResult,
      (chat_with_ai P history 6 msg
          ⟨some sl, some wk, some st, some md, some sc, hy⟩).prediction = some p
      ∧ p.day_classification
        = (predict_performance P ⟨sl, wk, st, md⟩).day_classification
      ∧ p.persona = (predict_performance P ⟨sl, wk, st, md⟩).persona := by
  rcases hp : (chat_with_ai P history 6 msg
      ⟨some sl, some wk, some st, some md, some sc, hy⟩).prediction with _ | p
  · exfalso
    simp [chat_with_ai, hgb, hn] at hp
  · refine ⟨p, rfl, ?_, ?_⟩ <;>
      simp [chat_with_ai, hgb, hn, featuresOf] at hp <;>
      subst hp <;>
      simp [predict_performance, featuresOf]

/-- Witness for C1 (amended) at a concrete turn with the dummy predictors. -/
theorem direct_and_chat_agree_on_class_persona_witness :
    ∃ p : PredictionResult,
      (chat_with_ai dummyPredictors none 6 "9"
          ⟨some 8, some 5, some 3, some 8, some 2, none⟩).prediction = some p
      ∧ p.day_classification
        = (predict_performance dummyPredictors ⟨8, 5, 3, 8⟩).day_classification
      ∧ p.persona = (predict_performance dummyPredictors ⟨8, 5, 3, 8⟩).persona :=
  direct_and_chat_agree_on_class_persona dummyPredictors none "9" 9 8 5 3 8 2 none
    (by decide) (by decide)

/-! ## C8: defaults substituted for missing metrics (corrected) -/

/-- Heuristic score as C8 words it: every missing metric replaced by its
*neutral* default — 7.0 for sleep, 5.0 for the 1-10 scales, 0 for screen
time and hydration — before computing the heuristic sub-scores.  Written
from the claim's words, to be compared against `heuristicScore` (which the
code computes with a sleep default of 0, chat.py line 493). -/
def heuristicScoreNeutralDefaults (d : SessionData) : ℚ :=
  score_sleep_chat (d.sleep_hours.getD 7)
    + score_work_chat (d.work_intensity.getD 5)
    + score_stress_chat (d.stress_level.getD 5)
    + score_mood_chat (d.mood_score.getD 5)
    + score_screen_chat (d.screen_time.getD 0)
    + score_hydration_chat (d.hydration.getD 0)

/-- C8 counterexample: completing step 6 with every other metric missing,
the code reports a daily score of 55, while substituting the claimed
neutral default 7.0 for the missing sleep in the heuristic would give 80:
the heuristic sub-scores are computed with a sleep default of 0, not
7.0. -/
theorem neutral_defaults_counterexample :
    (chat_with_ai dummyPredictors none 6 "9" emptyData).prediction.map
      PredictionResult.daily_score = some 55
    ∧ pyRound2 (min 100 (max 0 (heuristicScoreNeutralDefaults
        ⟨none, none, none, none, none, some 9⟩))) = 80
    ∧ (55 : ℚ) ≠ 80 :=
  ⟨by decide, by decide, by decide⟩

/-- C8 (amended): on the completing turn, missing metrics are defaulted
per-metric, but differently for the two consumers: the regressor feature
row substitutes 7.0 for sleep and 5.0 for the 1-10 scales, while the
heuristic sub-scores substitute 0 for sleep (and 5 for the 1-10 scales,
0 for screen time); hydration is always stored on that turn. -/
theorem scoring_defaults (P : Predictors) (history : Option HistorySummary)
    (msg : String) (n : ℚ) (data : SessionData)
    (hgb : check_go_back (normalizeMsg msg) = false)
    (hn : extract_number (normalizeMsg msg) = some n)
    (h1 : data.sleep_hours = none) (h2 : data.work_intensity = none)
    (h3 : data.stress_level = none) (h4 : data.mood_score = none)
    (h5 : data.screen_time = none) :
    featuresOf { data with hydration := some (max 0 (min 20 n)) } = ⟨7, 5, 5, 5⟩
    ∧ heuristicScore { data with hydration := some (max 0 (min 20 n)) }
      = score_sleep_chat 0 + score_work_chat 5 + score_stress_chat 5
        + score_mood_chat 5 + score_screen_chat 0
        + score_hydration_chat (max 0 (min 20 n))
    ∧ (chat_with_ai P history 6 msg data).prediction.map PredictionResult.daily_score
      = some (pyRound2 (min 100 (max 0
          (if P.regressor ⟨7, 5, 5, 5⟩ ≠ 5
           then P.regressor ⟨7, 5, 5, 5⟩ * (3 / 10)
             + heuristicScore { data with hydration := some (max 0 (min 20 n)) } * (7 / 10)
           else heuristicScore { data with hydration := some (max 0 (min 20 n)) })))) := by
  have hf : featuresOf { data with hydration := some (max 0 (min 20 n)) } = ⟨7, 5, 5, 5⟩ := by
    simp [featuresOf, h1, h2, h3, h4]
  refine ⟨hf, ?_, ?_⟩
  · simp [heuristicScore, h1, h2, h3, h4, h5]
  · simp [chat_with_ai, hgb, hn, hf]

/-- Witness for C8 (amended) at a concrete completing turn with empty
data. -/
theorem scoring_defaults_witness :
    featuresOf ⟨none, none, none, none, none, some (max 0 (min 20 9))⟩ = ⟨7, 5, 5, 5⟩
    ∧ (chat_with_ai dummyPredictors none 6 "9" emptyData).prediction.map
      PredictionResult.daily_score = some 55 :=
  ⟨(scoring_defaults dummyPredictors none "9" 9 emptyData (by decide) (by decide)
      rfl rfl rfl rfl rfl).1,
   by decide⟩
